import Mathlib

/-!
Verification of the token lifecycle and logging utilities of
inkwell-backend-V2.0 (package utilities).

Times and durations are modelled as `Int` nanoseconds, matching the Go type
time.Duration (int64 nanoseconds) and a single-clock reading of time.Now().
In Go, int64 multiplication wraps around, which `wrap64` makes explicit.
Tokens are modelled abstractly: a wire token is either a well-formed signed
payload (the claims plus the secret that signed it) or an unparsable string.
-/

deriving instance DecidableEq for Except

namespace Inkwell

/-- Twos-complement wraparound of Go int64 arithmetic. -/
def wrap64 (x : Int) : Int := (x + 2 ^ 63) % 2 ^ 64 - 2 ^ 63

/-- Go time.Second in nanoseconds. -/
def nsPerSecond : Int := 1000000000

/-- Go time.Minute in nanoseconds. -/
def nsPerMinute : Int := 60 * nsPerSecond

/-- Go time.Hour in nanoseconds. -/
def nsPerHour : Int := 3600 * nsPerSecond

/-- Embeds parseDuration (src/utilities/logger.go lines 123-135): converts a
session timeout value and a time-unit string to a time.Duration.  The second
component records the warnings printed to stdout (the default branch prints
exactly one).  Total by construction: every branch returns a duration. -/
def parseDuration (value : Int) (unit : String) : Int × List String :=
  if unit = "SECONDS" then (wrap64 (value * nsPerSecond), [])
  else if unit = "MINUTES" then (wrap64 (value * nsPerMinute), [])
  else if unit = "HOURS" then (wrap64 (value * nsPerHour), [])
  else (wrap64 (value * nsPerSecond),
    ["Warning: Unknown time unit \x27" ++ unit ++ "\x27, defaulting to SECONDS"])

/-- Modelled from the spec: model.User (internal/model, not under src/) supplies
ID, Username, Email; the token module reads only these three fields. -/
structure User where
  id : Nat
  username : String
  email : String
deriving DecidableEq, Repr

/-- Embeds the Claims struct (logger.go lines 138-143): UserID, Username, Email
plus the registered claims ExpiresAt, IssuedAt, Subject that this module sets. -/
structure Claims where
  userID : Nat
  username : String
  email : String
  expiresAt : Int
  issuedAt : Int
  subject : String
deriving DecidableEq, Repr

/-- A wire token: either a structurally well-formed token carrying its claims
and the secret it was signed with (symmetric HMAC-SHA256: the signature is
valid for a verification key exactly when that key equals the signing secret),
or an unparsable string. -/
inductive Token where
  | signed (claims : Claims) (secret : String)
  | garbage
deriving DecidableEq, Repr

/-- The distinct failure causes inside jwt.ParseWithClaims: undecodable
structure, signature mismatch, and failed registered-claims validation
(ErrTokenExpired). -/
inductive JwtError where
  | unparsable
  | badSignature
  | tokenExpired
deriving DecidableEq, Repr

/-- The (token, err) result of jwt.ParseWithClaims when err == nil: the decoded
claims and the Valid flag (set to true once signature and claims validation
passed). -/
structure ParsedToken where
  claims : Claims
  valid : Bool
deriving DecidableEq, Repr

/-- Models github.com/golang-jwt/jwt/v5 ParseWithClaims with a key function
returning `secret` and default parser options: decode the structure, verify
the HMAC signature against `secret`, then run the default claims validator,
which rejects the token unless now is strictly before ExpiresAt
(validator.verifyExpiresAt uses now.Before(exp)).  Only on full success is
token.Valid set. -/
def parseWithClaims (tok : Token) (secret : String) (now : Int) :
    Except JwtError ParsedToken :=
  match tok with
  | .garbage => .error .unparsable
  | .signed c s =>
    if s = secret then
      if now < c.expiresAt then .ok ⟨c, true⟩
      else .error .tokenExpired
    else .error .badSignature

/-- The process-wide secrets and expiries loaded once from configuration
(logger.go lines 99-120); passed explicitly here in place of the package
globals accessSecret, refreshSecret, accessExpiry, refreshExpiry. -/
structure TokenConfig where
  accessSecret : String
  refreshSecret : String
  accessExpiry : Int
  refreshExpiry : Int
deriving DecidableEq, Repr

/-- Embeds ValidateToken (logger.go lines 161-186): select the secret by token
class, parse and verify, surface any parse error as the single message
"invalid or malformed token", mirror the !token.Valid guard (the *Claims type
assertion always succeeds and is not represented), then explicitly re-check
expiry: claims.ExpiresAt.Time.Before(time.Now()). -/
def ValidateToken (cfg : TokenConfig) (tokenStr : Token) (isRefresh : Bool)
    (now : Int) : Except String Claims :=
  let secret := if isRefresh then cfg.refreshSecret else cfg.accessSecret
  match parseWithClaims tokenStr secret now with
  | .error _ => .error "invalid or malformed token"
  | .ok token =>
    if !token.valid then .error "invalid token claims"
    else if token.claims.expiresAt < now then .error "token has expired"
    else .ok token.claims

/-- Embeds generateToken (logger.go lines 214-228): build Claims with
ExpiresAt = now + expiry, IssuedAt = now, Subject = Email, and sign with HS256
under `secret`.  SignedString with a []byte HMAC key cannot fail for these
claim types, so the error case never occurs. -/
def generateToken (user : User) (secret : String) (expiry : Int) (now : Int) :
    Except String Token :=
  let claims : Claims :=
    { userID := user.id
      username := user.username
      email := user.email
      expiresAt := now + expiry
      issuedAt := now
      subject := user.email }
  .ok (.signed claims secret)

/-- Embeds GenerateTokens (logger.go lines 146-158): generate the access token
with the access secret/expiry, then the refresh token with the refresh
secret/expiry, propagating the first error. -/
def GenerateTokens (cfg : TokenConfig) (user : User) (now : Int) :
    Except String (Token × Token) :=
  match generateToken user cfg.accessSecret cfg.accessExpiry now with
  | .error e => .error e
  | .ok accessToken =>
    match generateToken user cfg.refreshSecret cfg.refreshExpiry now with
    | .error e => .error e
    | .ok refreshToken => .ok (accessToken, refreshToken)

/-- Embeds RefreshTokens (logger.go lines 189-211): validate the refresh token
as refresh-class, re-check expiry, rebuild a minimal user from the claims and
mint a fresh pair; each failure cause maps to its fixed message. -/
def RefreshTokens (cfg : TokenConfig) (refreshToken : Token) (now : Int) :
    Except String (Token × Token) :=
  match ValidateToken cfg refreshToken true now with
  | .error _ => .error "invalid or expired refresh token"
  | .ok claims =>
    if claims.expiresAt < now then .error "refresh token has expired"
    else
      match GenerateTokens cfg
          { id := claims.userID
            username := claims.username
            email := claims.email } now with
      | .error _ => .error "failed to generate new tokens"
      | .ok fresh => .ok fresh

/-- The three output streams of the logger (logger.go lines 13-18). -/
inductive LogStream where
  | info
  | warn
  | error
deriving DecidableEq, Repr

/-- Embeds the switch on `level` in Log (logger.go lines 65-74): INFO, WARNING
and ERROR go to their loggers, everything else falls to the default branch,
which writes to the INFO logger. -/
def logRoute (level : String) : LogStream :=
  if level = "INFO" then .info
  else if level = "WARNING" then .warn
  else if level = "ERROR" then .error
  else .info

/-- Embeds Log (logger.go lines 58-75): format the entry
"level [caller]: message" and route it by level. -/
def Log (level caller message : String) : LogStream × String :=
  (logRoute level, level ++ " [" ++ caller ++ "]: " ++ message)

/-- Helper: whenever ValidateToken succeeds, the current time is strictly
before the ExpiresAt of the returned claims (the library-level expiry check
passed during parsing). -/
lemma validateToken_ok_lt (cfg : TokenConfig) (tok : Token) (isRefresh : Bool)
    (now : Int) (c : Claims) (h : ValidateToken cfg tok isRefresh now = .ok c) :
    now < c.expiresAt := by
  cases tok with
  | garbage => simp [ValidateToken, parseWithClaims] at h
  | signed cl s =>
    by_cases hs : s = (if isRefresh then cfg.refreshSecret else cfg.accessSecret)
    · by_cases he : now < cl.expiresAt
      · simp [ValidateToken, parseWithClaims, hs, he,
          show ¬ cl.expiresAt < now by omega] at h
        exact h ▸ he
      · simp [ValidateToken, parseWithClaims, hs, he] at h
    · simp [ValidateToken, parseWithClaims, hs] at h

/-- Helper: GenerateTokens never fails and produces the two signed tokens with
the respective secret and expiry. -/
lemma generateTokens_eq (cfg : TokenConfig) (user : User) (now : Int) :
    GenerateTokens cfg user now =
      .ok (.signed ⟨user.id, user.username, user.email, now + cfg.accessExpiry,
              now, user.email⟩ cfg.accessSecret,
           .signed ⟨user.id, user.username, user.email, now + cfg.refreshExpiry,
              now, user.email⟩ cfg.refreshSecret) := rfl

/-- Helper: validating a freshly issued token of the matching class at the
issuance instant succeeds when the expiry is positive. -/
lemma validate_fresh (cfg : TokenConfig) (c : Claims) (isRefresh : Bool)
    (now : Int) (hs : now < c.expiresAt) :
    ValidateToken cfg
        (.signed c (if isRefresh then cfg.refreshSecret else cfg.accessSecret))
        isRefresh now = .ok c := by
  simp [ValidateToken, parseWithClaims, hs, show ¬ c.expiresAt < now by omega]

/-- Claim C1, counterexample: a structurally valid token signed with the
selected access secret whose ExpiresAt (5) equals the current time (5) is
rejected by ValidateToken with the malformed-token error, not the
expiry-specific error: the library-level claims validation inside
jwt.ParseWithClaims already rejects it during parsing. -/
theorem validateToken_expiry_boundary_counterexample :
    ValidateToken ⟨"as", "rs", 10, 20⟩
        (.signed ⟨1, "u", "e", 5, 0, "e"⟩ "as") false 5 =
      .error "invalid or malformed token" ∧
    ValidateToken ⟨"as", "rs", 10, 20⟩
        (.signed ⟨1, "u", "e", 5, 0, "e"⟩ "as") false 5 ≠
      .error "token has expired" := by
  exact ⟨rfl, by decide⟩

/-- Claim C1, amended: for every token that is structurally valid and signed
with the secret ValidateToken selects, if ExpiresAt is at or before the
current time then ValidateToken fails, but with MalformedTokenError rather
than ExpiredTokenError: the underlying library verification enforces expiry
during parsing, so under a single clock reading the explicit re-check never
produces the expiry-specific error. -/
theorem validateToken_expired_yields_malformed (cfg : TokenConfig) (c : Claims)
    (isRefresh : Bool) (now : Int) (h : c.expiresAt ≤ now) :
    ValidateToken cfg
        (.signed c (if isRefresh then cfg.refreshSecret else cfg.accessSecret))
        isRefresh now =
      .error "invalid or malformed token" := by
  simp [ValidateToken, parseWithClaims, show ¬ now < c.expiresAt by omega]

/-- Witness for the amended claim C1 at a concrete expired token. -/
theorem validateToken_expired_yields_malformed_witness :
    ValidateToken ⟨"as", "rs", 10, 20⟩
        (.signed ⟨1, "u", "e", 5, 0, "e"⟩ "as") false 9 =
      .error "invalid or malformed token" :=
  validateToken_expired_yields_malformed ⟨"as", "rs", 10, 20⟩
    ⟨1, "u", "e", 5, 0, "e"⟩ false 9 (by decide)

/-- Claim C6: whatever the failure cause inside jwt.ParseWithClaims
(unparsable structure, invalid signature or wrong secret, failed claims
validation), ValidateToken surfaces it as the single malformed-token error;
the message does not depend on the cause. -/
theorem validateToken_single_malformed_error (cfg : TokenConfig) (tok : Token)
    (isRefresh : Bool) (now : Int) (e : JwtError)
    (h : parseWithClaims tok
        (if isRefresh then cfg.refreshSecret else cfg.accessSecret) now =
      .error e) :
    ValidateToken cfg tok isRefresh now = .error "invalid or malformed token" := by
  simp [ValidateToken, h]

/-- Witness for claim C6 at a concrete unparsable token. -/
theorem validateToken_single_malformed_error_witness :
    ValidateToken ⟨"as", "rs", 10, 20⟩ .garbage false 0 =
      .error "invalid or malformed token" :=
  validateToken_single_malformed_error ⟨"as", "rs", 10, 20⟩ .garbage false 0
    .unparsable rfl

/-- Claim C7: parseDuration is total; SECONDS, MINUTES and HOURS scale the
value by the corresponding unit (with Go int64 wraparound semantics), any
other unit falls back to seconds and prints exactly one warning naming the
unrecognized unit; in particular 5 MINUTES is 300 seconds and 5 BOGUS is
5 seconds with one warning. -/
theorem parseDuration_spec (v : Int) (u : String) :
    parseDuration v "SECONDS" = (wrap64 (v * nsPerSecond), []) ∧
    parseDuration v "MINUTES" = (wrap64 (v * nsPerMinute), []) ∧
    parseDuration v "HOURS" = (wrap64 (v * nsPerHour), []) ∧
    (u ≠ "SECONDS" → u ≠ "MINUTES" → u ≠ "HOURS" →
      parseDuration v u =
        (wrap64 (v * nsPerSecond),
         ["Warning: Unknown time unit \x27" ++ u ++ "\x27, defaulting to SECONDS"])) ∧
    parseDuration 5 "MINUTES" = (300 * nsPerSecond, []) ∧
    (parseDuration 5 "BOGUS").1 = 5 * nsPerSecond ∧
    (parseDuration 5 "BOGUS").2.length = 1 := by
  refine ⟨rfl, rfl, rfl, ?_, by decide, by decide, by decide⟩
  intro h1 h2 h3
  simp [parseDuration, h1, h2, h3]

/-- Witness for claim C7 at the concrete inputs named by the spec. -/
theorem parseDuration_spec_witness :
    parseDuration 5 "BOGUS" =
      (5 * nsPerSecond,
       ["Warning: Unknown time unit \x27BOGUS\x27, defaulting to SECONDS"]) :=
  (parseDuration_spec 5 "BOGUS").2.2.2.1 (by decide) (by decide) (by decide)

/-- Claim C8, counterexample: with a configured expiry of 0, the token issuer
produces a Claims instance whose ExpiresAt equals IssuedAt, violating the
invariant ExpiresAt > IssuedAt. -/
theorem generateToken_zero_expiry_counterexample :
    generateToken ⟨1, "u", "e"⟩ "secret" 0 0 =
      .ok (.signed ⟨1, "u", "e", 0, 0, "e"⟩ "secret") ∧
    ¬ (Claims.expiresAt ⟨1, "u", "e", 0, 0, "e"⟩ >
        Claims.issuedAt ⟨1, "u", "e", 0, 0, "e"⟩) := by
  exact ⟨rfl, by decide⟩

/-- Claim C8, amended: every Claims instance produced by the token issuer
satisfies ExpiresAt > IssuedAt, for every user and every positive configured
expiry duration. -/
theorem generateToken_expiry_after_issuance (user : User) (secret : String)
    (expiry now : Int) (h : 0 < expiry) (c : Claims) (s : String)
    (hg : generateToken user secret expiry now = .ok (.signed c s)) :
    c.expiresAt > c.issuedAt := by
  simp [generateToken] at hg
  obtain ⟨hc, -⟩ := hg
  subst hc
  simpa using h

/-- Witness for the amended claim C8 at a concrete positive expiry. -/
theorem generateToken_expiry_after_issuance_witness :
    Claims.expiresAt ⟨1, "u", "e", 10, 0, "e"⟩ >
      Claims.issuedAt ⟨1, "u", "e", 10, 0, "e"⟩ :=
  generateToken_expiry_after_issuance ⟨1, "u", "e"⟩ "secret" 10 0 (by decide)
    ⟨1, "u", "e", 10, 0, "e"⟩ "secret" rfl

/-- Claim C9: every level string other than INFO, WARNING and ERROR is routed
by Log to the INFO logger (the default switch branch); it is not dropped and
reaches neither the warn nor the error stream. -/
theorem log_unknown_level_to_info (level caller message : String)
    (h1 : level ≠ "INFO") (h2 : level ≠ "WARNING") (h3 : level ≠ "ERROR") :
    (Log level caller message).1 = LogStream.info ∧
    (Log level caller message).1 ≠ LogStream.warn ∧
    (Log level caller message).1 ≠ LogStream.error := by
  simp [Log, logRoute, h1, h2, h3]

/-- Witness for claim C9 at a concrete unrecognized level. -/
theorem log_unknown_level_to_info_witness :
    (Log "DEBUG" "caller" "message").1 = LogStream.info ∧
    (Log "DEBUG" "caller" "message").1 ≠ LogStream.warn ∧
    (Log "DEBUG" "caller" "message").1 ≠ LogStream.error :=
  log_unknown_level_to_info "DEBUG" "caller" "message" (by decide) (by decide)
    (by decide)

/-- Claim C2: for every user and every configuration with positive access
expiry, validating the access token produced by GenerateTokens with
isRefresh = false succeeds and returns Claims whose UserID, Username and
Email equal the fields of the user, whose Subject equals the Email of the
user, and whose ExpiresAt minus IssuedAt equals the configured access
expiry (exactly, under a single clock reading). -/
theorem generate_validate_roundtrip (cfg : TokenConfig) (user : User)
    (now : Int) (h : 0 < cfg.accessExpiry) :
    ∃ accessToken refreshToken,
      GenerateTokens cfg user now = .ok (accessToken, refreshToken) ∧
      ∃ c, ValidateToken cfg accessToken false now = .ok c ∧
        c.userID = user.id ∧ c.username = user.username ∧
        c.email = user.email ∧ c.subject = user.email ∧
        c.expiresAt - c.issuedAt = cfg.accessExpiry := by
  refine ⟨.signed ⟨user.id, user.username, user.email, now + cfg.accessExpiry,
            now, user.email⟩ cfg.accessSecret,
          .signed ⟨user.id, user.username, user.email, now + cfg.refreshExpiry,
            now, user.email⟩ cfg.refreshSecret,
          rfl,
          ⟨user.id, user.username, user.email, now + cfg.accessExpiry,
            now, user.email⟩,
          ?_, rfl, rfl, rfl, rfl, by simp⟩
  exact validate_fresh cfg _ false now (by simpa using by omega)

/-- Witness for claim C2 at a concrete configuration and user. -/
theorem generate_validate_roundtrip_witness :
    ∃ accessToken refreshToken,
      GenerateTokens ⟨"as", "rs", 10, 20⟩ ⟨1, "u", "e"⟩ 0 =
        .ok (accessToken, refreshToken) ∧
      ∃ c, ValidateToken ⟨"as", "rs", 10, 20⟩ accessToken false 0 = .ok c ∧
        c.userID = 1 ∧ c.username = "u" ∧ c.email = "e" ∧ c.subject = "e" ∧
        c.expiresAt - c.issuedAt = (10 : Int) :=
  generate_validate_roundtrip ⟨"as", "rs", 10, 20⟩ ⟨1, "u", "e"⟩ 0 (by decide)

/-- Claim C3: a token signed with a secret different from the secret
ValidateToken selects for the requested class fails with the malformed-token
error; consequently, when the access and refresh secrets differ, RefreshTokens
invoked on an access-class token fails. -/
theorem wrong_secret_rejected (cfg : TokenConfig) (c : Claims) (s : String)
    (isRefresh : Bool) (now : Int)
    (h : s ≠ (if isRefresh then cfg.refreshSecret else cfg.accessSecret)) :
    ValidateToken cfg (.signed c s) isRefresh now =
      .error "invalid or malformed token" ∧
    (cfg.accessSecret ≠ cfg.refreshSecret →
      RefreshTokens cfg (.signed c cfg.accessSecret) now =
        .error "invalid or expired refresh token") := by
  constructor
  · simp [ValidateToken, parseWithClaims, h]
  · intro hne
    have hv : ValidateToken cfg (.signed c cfg.accessSecret) true now =
        .error "invalid or malformed token" := by
      simp [ValidateToken, parseWithClaims, hne]
    simp [RefreshTokens, hv]

/-- Witness for claim C3 at a concrete wrongly signed token and a concrete
access-class token passed to RefreshTokens. -/
theorem wrong_secret_rejected_witness :
    ValidateToken ⟨"as", "rs", 10, 20⟩
        (.signed ⟨1, "u", "e", 5, 0, "e"⟩ "xx") false 0 =
      .error "invalid or malformed token" ∧
    RefreshTokens ⟨"as", "rs", 10, 20⟩
        (.signed ⟨1, "u", "e", 5, 0, "e"⟩ "as") 0 =
      .error "invalid or expired refresh token" := by
  have h := wrong_secret_rejected ⟨"as", "rs", 10, 20⟩ ⟨1, "u", "e", 5, 0, "e"⟩
    "xx" false 0 (by decide)
  exact ⟨h.1, h.2 (by decide)⟩

/-- Claim C4: RefreshTokens returns the message "invalid or expired refresh
token" exactly when validation of the refresh token fails, "refresh token has
expired" exactly when the redundant expiry re-check fails, and "failed to
generate new tokens" exactly when regeneration of the new pair fails. -/
theorem refreshTokens_error_messages (cfg : TokenConfig) (tok : Token)
    (now : Int) :
    (RefreshTokens cfg tok now = .error "invalid or expired refresh token" ↔
      ∃ e, ValidateToken cfg tok true now = .error e) ∧
    (RefreshTokens cfg tok now = .error "refresh token has expired" ↔
      ∃ c, ValidateToken cfg tok true now = .ok c ∧ c.expiresAt < now) ∧
    (RefreshTokens cfg tok now = .error "failed to generate new tokens" ↔
      ∃ c, ValidateToken cfg tok true now = .ok c ∧ ¬ c.expiresAt < now ∧
        ∃ e, GenerateTokens cfg ⟨c.userID, c.username, c.email⟩ now =
          .error e) := by
  rcases hv : ValidateToken cfg tok true now with e | c
  · simp [RefreshTokens, hv]
  · have hlt := validateToken_ok_lt cfg tok true now c hv
    simp [RefreshTokens, hv, generateTokens_eq,
      show ¬ c.expiresAt < now by omega]

/-- Witness for claim C4: a concrete unparsable refresh token produces the
validation-failure message. -/
theorem refreshTokens_error_messages_witness :
    RefreshTokens ⟨"as", "rs", 10, 20⟩ .garbage 0 =
      .error "invalid or expired refresh token" :=
  (refreshTokens_error_messages ⟨"as", "rs", 10, 20⟩ .garbage 0).1.mpr
    ⟨"invalid or malformed token", rfl⟩

/-- Claim C5: for every refresh token that validates as refresh-class (valid
and unexpired) under a configuration with positive expiries, RefreshTokens
succeeds with a new access/refresh pair whose embedded UserID, Username and
Email match the claims of the original refresh token, and each new token
validates successfully as its own class. -/
theorem refreshTokens_roundtrip (cfg : TokenConfig) (tok : Token) (now : Int)
    (c : Claims) (hA : 0 < cfg.accessExpiry) (hR : 0 < cfg.refreshExpiry)
    (hv : ValidateToken cfg tok true now = .ok c) :
    ∃ a r, RefreshTokens cfg tok now = .ok (a, r) ∧
      (∃ ca, ValidateToken cfg a false now = .ok ca ∧
        ca.userID = c.userID ∧ ca.username = c.username ∧
        ca.email = c.email) ∧
      (∃ cr, ValidateToken cfg r true now = .ok cr ∧
        cr.userID = c.userID ∧ cr.username = c.username ∧
        cr.email = c.email) := by
  have hlt := validateToken_ok_lt cfg tok true now c hv
  refine ⟨.signed ⟨c.userID, c.username, c.email, now + cfg.accessExpiry,
            now, c.email⟩ cfg.accessSecret,
          .signed ⟨c.userID, c.username, c.email, now + cfg.refreshExpiry,
            now, c.email⟩ cfg.refreshSecret,
          ?_,
          ⟨⟨c.userID, c.username, c.email, now + cfg.accessExpiry,
            now, c.email⟩, ?_, rfl, rfl, rfl⟩,
          ⟨⟨c.userID, c.username, c.email, now + cfg.refreshExpiry,
            now, c.email⟩, ?_, rfl, rfl, rfl⟩⟩
  · simp [RefreshTokens, hv, generateTokens_eq,
      show ¬ c.expiresAt < now by omega]
  · exact validate_fresh cfg _ false now (by simpa using by omega)
  · exact validate_fresh cfg _ true now (by simpa using by omega)

/-- Witness for claim C5 at a concrete valid refresh token. -/
theorem refreshTokens_roundtrip_witness :
    ∃ a r, RefreshTokens ⟨"as", "rs", 10, 20⟩
        (.signed ⟨1, "u", "e", 5, 0, "e"⟩ "rs") 0 = .ok (a, r) ∧
      (∃ ca, ValidateToken ⟨"as", "rs", 10, 20⟩ a false 0 = .ok ca ∧
        ca.userID = 1 ∧ ca.username = "u" ∧ ca.email = "e") ∧
      (∃ cr, ValidateToken ⟨"as", "rs", 10, 20⟩ r true 0 = .ok cr ∧
        cr.userID = 1 ∧ cr.username = "u" ∧ cr.email = "e") :=
  refreshTokens_roundtrip ⟨"as", "rs", 10, 20⟩
    (.signed ⟨1, "u", "e", 5, 0, "e"⟩ "rs") 0 ⟨1, "u", "e", 5, 0, "e"⟩
    (by decide) (by decide) rfl

/-- Claim C10: under a single consistent clock reading, whenever ValidateToken
succeeds on the refresh token the ExpiresAt of the claims is strictly after
the current time, so the redundant re-check in RefreshTokens cannot fail: the
branch returning "refresh token has expired" is unreachable. -/
theorem refresh_expiry_recheck_unreachable (cfg : TokenConfig) (tok : Token)
    (now : Int) :
    (∀ c, ValidateToken cfg tok true now = .ok c → now < c.expiresAt) ∧
    RefreshTokens cfg tok now ≠ .error "refresh token has expired" := by
  refine ⟨fun c h => validateToken_ok_lt cfg tok true now c h, ?_⟩
  rcases hv : ValidateToken cfg tok true now with e | c
  · simp [RefreshTokens, hv]
  · have hlt := validateToken_ok_lt cfg tok true now c hv
    simp [RefreshTokens, hv, generateTokens_eq,
      show ¬ c.expiresAt < now by omega]

/-- Witness for claim C10 at a concrete valid refresh token. -/
theorem refresh_expiry_recheck_unreachable_witness :
    (0 : Int) < 5 ∧
    RefreshTokens ⟨"as", "rs", 10, 20⟩
        (.signed ⟨1, "u", "e", 5, 0, "e"⟩ "rs") 0 ≠
      .error "refresh token has expired" := by
  have h := refresh_expiry_recheck_unreachable ⟨"as", "rs", 10, 20⟩
    (.signed ⟨1, "u", "e", 5, 0, "e"⟩ "rs") 0
  exact ⟨h.1 ⟨1, "u", "e", 5, 0, "e"⟩ rfl, h.2⟩

end Inkwell
